import Mathlib

/-!
# Verification of the nostr-kv synchronization engine

Shallow embedding of the final iteration of `index.js` (the version using
`SimplePool`, lines 898-1407 of the concatenated source).  The local
IndexedDB store (`idb-keyval`) is modelled as an association list from
string keys to stored values; the store operations `get`/`set`/`del`, the
receive-side LWW merge (`subscribeToUpdates`/`onevent`), the publish
snapshot construction (`publishToNostr`), the retry/backoff logic, the
`sync()` future, the change-listener notification loop, and the event-loop
scheduling of `scheduleSync`/`publishToNostr` are each translated directly
from the source.
-/

namespace NostrKV

/-- JSON-serializable values as stored by the library.  The only structural
test the engine ever performs on a value is `value === null`
(index.js line 1227), so the compound JSON forms are represented alongside
the atoms. -/
inductive Val where
  | null
  | bool (b : Bool)
  | num (n : Int)
  | str (s : String)
  deriving DecidableEq, Repr

/-- A `{value, lastModified}` record: this is both the shape of a local
entry's payload (`{value, meta: {lastModified}}`, index.js lines 1300-1305)
and the shape of one key's record inside a published snapshot
(`data[key] = {value, lastModified}`, index.js lines 1071-1074).
`lastModified` is `Date.now()` milliseconds. -/
structure Entry where
  value : Val
  lastModified : Nat
  deriving DecidableEq, Repr

/-- What can physically sit in the IndexedDB store.  User keys hold an
entry `{value, meta: {lastModified}}`; the cursor key `_nkvmeta_lastSync`
holds a raw number, because the final version persists it with
`localSet(LAST_SYNC_KEY, Date.now())` (index.js line 1190). -/
inductive Stored where
  | entry (e : Entry)
  | rawNat (n : Nat)
  deriving DecidableEq, Repr

/-- The IndexedDB keyval store for one namespace: an association list of
key/stored-value pairs (each key bound at most once; `localSet` replaces
in place). -/
def Store := List (String × Stored)
  deriving DecidableEq

instance : Repr Store := inferInstanceAs (Repr (List (String × Stored)))

/-- `idbGet` (index.js line 988): look a key up. -/
def localGet (st : Store) (k : String) : Option Stored :=
  match st with
  | [] => none
  | (k', v) :: rest => if k' = k then some v else localGet rest k

/-- `idbSet` (index.js line 989): bind a key, replacing any existing
binding. -/
def localSet (st : Store) (k : String) (v : Stored) : Store :=
  match st with
  | [] => [(k, v)]
  | (k', v') :: rest =>
      if k' = k then (k, v) :: rest else (k', v') :: localSet rest k v

/-- `idbDel` (index.js line 990): remove a key's binding entirely. -/
def localDel (st : Store) (k : String) : Store :=
  match st with
  | [] => []
  | (k', v') :: rest =>
      if k' = k then localDel rest k else (k', v') :: localDel rest k

/-- The reserved bookkeeping key name stem, `'_nkvmeta'`
(index.js lines 1068, 1208). -/
def NKVMETA : String := "_nkvmeta"

/-- `LAST_SYNC_KEY = '_nkvmeta_lastSync'` (index.js line 1009). -/
def LAST_SYNC_KEY : String := "_nkvmeta_lastSync"

/-- `key.startsWith('_nkvmeta')` (index.js lines 1068, 1208), written over
the key's character list so that it evaluates by kernel reduction. -/
def startsWithMeta (k : String) : Bool :=
  NKVMETA.data.isPrefixOf k.data

/-- `get(key)` (index.js lines 1286-1291): read the stored entry and
return only its `value` field; a missing key — or a stored raw number,
whose `.value` is `undefined` in JS — yields `undefined`, modelled as
`none`. -/
def storeGet (st : Store) (k : String) : Option Val :=
  match localGet st k with
  | some (.entry e) => some e.value
  | _ => none

/-- `set(key, value)` (index.js lines 1299-1314): persist
`{value, meta: {lastModified: Date.now()}}` under the key.  `nowMs` is the
`Date.now()` millisecond timestamp taken inside `set`. -/
def storeSet (st : Store) (k : String) (v : Val) (nowMs : Nat) : Store :=
  localSet st k (.entry ⟨v, nowMs⟩)

/-- `del(key)` (index.js lines 1322-1326): physically remove the key from
the local store (`localDel`), then schedule a sync.  Note the source's own
TODO comments (lines 906 and 1321) say deletion should instead write a
special tombstone record. -/
def storeDel (st : Store) (k : String) : Store :=
  localDel st k

/-- The receive-side overwrite test (index.js lines 1224-1225):
`!current || !current.meta || current.meta.lastModified < timestamp`.
An absent local value always loses; a stored raw number has no `meta` and
always loses; a proper entry loses exactly when its `lastModified` is
strictly smaller than the remote timestamp. -/
def shouldOverwrite (cur : Option Stored) (ts : Nat) : Bool :=
  match cur with
  | none => true
  | some (.rawNat _) => true
  | some (.entry e) => e.lastModified < ts

/-- How a winning remote record is applied (index.js lines 1227-1239):
a `null` remote value deletes the local key (`localDel`); any other value
is stored as `{value, meta: {lastModified: timestamp}}` carrying the
remote record's `lastModified`. -/
def applyRemote (st : Store) (k : String) (re : Entry) : Store :=
  match re.value with
  | .null => localDel st k
  | _ => localSet st k (.entry ⟨re.value, re.lastModified⟩)

/-- One iteration of the merge loop over a decrypted snapshot
(index.js lines 1206-1243): skip `_nkvmeta`-stemmed keys, otherwise
overwrite exactly when `shouldOverwrite` holds, recording whether the key
was pushed onto `changedKeys`. -/
def mergeKey (st : Store) (k : String) (re : Entry) : Store × Bool :=
  if startsWithMeta k then (st, false)
  else if shouldOverwrite (localGet st k) re.lastModified then
    (applyRemote st k re, true)
  else (st, false)

/-- The whole merge loop (index.js lines 1203-1244): fold `mergeKey` over
the decrypted snapshot's `(key, entry)` pairs in order, accumulating the
`changedKeys` list. -/
def mergeSnapshot (st : Store) (snap : List (String × Entry)) :
    Store × List String :=
  snap.foldl
    (fun acc p =>
      let r := mergeKey acc.1 p.1 p.2
      (r.1, if r.2 then acc.2 ++ [p.1] else acc.2))
    (st, [])

/-- Snapshot construction in `publishToNostr` (index.js lines 1060-1076):
walk all store entries, skip keys stemmed with `_nkvmeta`, and keep only
records that have a `meta` field (a raw number has none), emitting
`{value, lastModified}` for each. -/
def snapshotData (st : Store) : List (String × Entry) :=
  st.filterMap fun p =>
    if startsWithMeta p.1 then none
    else
      match p.2 with
      | .entry e => some (p.1, e)
      | .rawNat _ => none

/-- Cursor handling on event receipt (index.js lines 1186-1191): if the
event's `created_at` exceeds the in-memory `lastSyncTime`, set
`lastSyncTime` to `created_at` and persist — but the final version
persists `Date.now()` (the current wall-clock milliseconds `nowMs`), not
the sync time itself.  Returns the new in-memory cursor and the new
store. -/
def processEventCursor (lastSyncTime createdAt nowMs : Nat) (st : Store) :
    Nat × Store :=
  if lastSyncTime < createdAt then
    (createdAt, localSet st LAST_SYNC_KEY (.rawNat nowMs))
  else (lastSyncTime, st)

/-- Cursor load at startup (index.js line 1274):
`lastSyncTime = await localGet(LAST_SYNC_KEY) || 0`. -/
def initCursor (st : Store) : Nat :=
  match localGet st LAST_SYNC_KEY with
  | some (.rawNat n) => n
  | _ => 0

/-! ## Retry / backoff and the `sync()` future -/

/-- `BASE_RETRY_DELAY = 1000` (index.js line 1003). -/
def BASE_RETRY_DELAY : Nat := 1000

/-- What the failure branch of `publishToNostr` does next. -/
inductive FailOutcome where
  /-- A retry was scheduled `delay` milliseconds out with the incremented
  retry counter. -/
  | retry (delay : Nat) (newRetryCount : Nat)
  /-- The budget is exhausted: the pending `sync()` future is resolved
  with `syncResolvedWith` and the retry counter reset. -/
  | giveUp (syncResolvedWith : Bool) (newRetryCount : Nat)
  deriving DecidableEq, Repr

/-- The failure branch of `publishToNostr` (index.js lines 1121-1151):
increment `publishRetryCount`; retry when `maxRetryCount === 0` or the
incremented count is still below `maxRetryCount`, with delay
`min(BASE_RETRY_DELAY * 2^(count-1), maxRetryDelay)`; otherwise resolve
the `sync()` future with `false` and reset the counter to `0`. -/
def onPublishFailure (retryCount maxRetryCount maxRetryDelay : Nat) :
    FailOutcome :=
  if maxRetryCount = 0 ∨ retryCount + 1 < maxRetryCount then
    .retry (min (BASE_RETRY_DELAY * 2 ^ (retryCount + 1 - 1)) maxRetryDelay)
      (retryCount + 1)
  else
    .giveUp false 0

/-- The value the pending `sync()` future is eventually resolved with,
given the sequence of publish-attempt results (`true` = at least one relay
accepted, index.js lines 1100-1110) and the current retry counter.  A
successful attempt resolves it `true` (line 1117); a failed attempt either
chains into the scheduled retry (line 1140) or, on exhaustion, resolves it
`false` (line 1147).  `none` means the chain has not yet terminated within
the observed attempts. -/
def publishChain (attempts : List Bool)
    (retryCount maxRetryCount maxRetryDelay : Nat) : Option Bool :=
  match attempts with
  | [] => none
  | true :: _ => some true
  | false :: rest =>
      match onPublishFailure retryCount maxRetryCount maxRetryDelay with
      | .retry _ c => publishChain rest c maxRetryCount maxRetryDelay
      | .giveUp b _ => some b

/-- `sync()` (index.js lines 1384-1386): if a publish is pending or in
flight (`syncPromise` exists, created in `scheduleSync` lines 1036-1041),
return its future — whose eventual value is `publishChain` over the
attempt results; otherwise return `Promise.resolve(true)` immediately. -/
def syncCall (inflight : Option (List Bool × Nat))
    (maxRetryCount maxRetryDelay : Nat) : Option Bool :=
  match inflight with
  | none => some true
  | some (attempts, retryCount) =>
      publishChain attempts retryCount maxRetryCount maxRetryDelay

/-! ## Change-listener notification

The final version's notification loop (index.js lines 1254-1258) calls
each registered listener in order with **no** try/catch around the call
(unlike both earlier iterations, which wrapped each call):

    changeListeners.forEach(listener => {
      log("telling listener", key, value);
      listener(key, value);
    });

A listener is modelled by the one behavior the engine can observe: whether
its invocation on a given `(key, value)` throws. -/

/-- A registered `onChange` callback, characterized by whether calling it
with a given key and value throws. -/
structure Listener where
  throws : String → Val → Bool

/-- Run the notification loop for one changed key: call each listener in
registration order; since there is no per-listener try/catch, the first
listener that throws aborts `forEach` (its exception propagates to the
event handler's outer catch, index.js line 1261).  Returns the indices of
the listeners actually invoked and whether an exception escaped. -/
def notifyListeners (ls : List Listener) (k : String) (v : Val) :
    List Nat × Bool :=
  match ls with
  | [] => ([], false)
  | l :: rest =>
      if l.throws k v then ([0], true)
      else
        let r := notifyListeners rest k v
        (0 :: r.1.map (· + 1), r.2)

/-- Index of the first listener that throws on `(k, v)`, if any. -/
def firstThrowIdx (k : String) (v : Val) : List Listener → Option Nat
  | [] => none
  | l :: rest =>
      if l.throws k v then some 0
      else (firstThrowIdx k v rest).map (· + 1)

/-! ## Event-loop model of the publish scheduler

`scheduleSync` (index.js lines 1035-1054) only clears and re-arms the
debounce timer — it consults no in-flight flag.  The timer callback
(lines 1050-1053) nulls `debounceTimer` and calls `publishToNostr`, which
suspends at `await`s (`idbEntries`, `encryptData`, `pool.publish` at
lines 1061, 1082, 1102-1105) with no guard against a concurrent call.
Under JavaScript's event loop, timer callbacks run while an earlier
`publishToNostr` invocation is suspended at such an `await`.  The model
tracks wall-clock time, the armed debounce timer, and how many
`publishToNostr` invocations are currently suspended awaiting the relay
pool. -/

/-- `DEFAULT_DEBOUNCE = 1010` (index.js line 932). -/
def DEFAULT_DEBOUNCE : Nat := 1010

/-- Scheduler-relevant state of one store instance. -/
structure LoopState where
  now : Nat
  /-- Fire time of the armed debounce timer, if any. -/
  debounceTimer : Option Nat
  /-- Number of `publishToNostr` invocations currently suspended awaiting
  the relay pool's response. -/
  inFlight : Nat
  deriving DecidableEq, Repr

/-- Events the store instance's event loop can process. -/
inductive LoopEv where
  /-- `set`/`del` at time `t`: `scheduleSync` clears any pending debounce
  timer and arms a new one `DEFAULT_DEBOUNCE` ms out
  (index.js lines 1046-1053). -/
  | localWrite (t : Nat)
  /-- The armed debounce timer reaches its fire time: the callback nulls
  the timer and calls `publishToNostr`, which suspends at its awaits
  (index.js lines 1050-1053, 1100-1105). -/
  | debounceFire
  /-- One suspended `publishToNostr` invocation's awaited pool response
  settles at time `t`. -/
  | publishReturn (t : Nat)

/-- One event-loop step; `none` when the event is not enabled in the given
state (no such timer armed, nothing in flight, or time would run
backwards). -/
def loopStep (s : LoopState) (e : LoopEv) : Option LoopState :=
  match e with
  | .localWrite t =>
      if s.now ≤ t then
        some ⟨t, some (t + DEFAULT_DEBOUNCE), s.inFlight⟩
      else none
  | .debounceFire =>
      match s.debounceTimer with
      | some ft =>
          if s.now ≤ ft then some ⟨ft, none, s.inFlight + 1⟩ else none
      | none => none
  | .publishReturn t =>
      if s.now ≤ t ∧ 0 < s.inFlight then
        some ⟨t, s.debounceTimer, s.inFlight - 1⟩
      else none

/-- Run a sequence of event-loop steps. -/
def runLoop (s : LoopState) : List LoopEv → Option LoopState
  | [] => some s
  | e :: rest =>
      match loopStep s e with
      | some s' => runLoop s' rest
      | none => none

/-! ## Basic store lemmas -/

theorem localGet_localSet_same (st : Store) (k : String) (v : Stored) :
    localGet (localSet st k v) k = some v := by
  induction st with
  | nil => simp [localSet, localGet]
  | cons p rest ih =>
      obtain ⟨k', v'⟩ := p
      by_cases h : k' = k <;> simp [localSet, localGet, h, ih]

theorem localGet_localDel_same (st : Store) (k : String) :
    localGet (localDel st k) k = none := by
  induction st with
  | nil => simp [localDel, localGet]
  | cons p rest ih =>
      obtain ⟨k', v'⟩ := p
      by_cases h : k' = k <;> simp [localDel, localGet, h, ih]

/-! ## Claim theorems -/

/-- C1: for every `(key, remoteEntry)` pair of an incoming snapshot (user
keys, i.e. not `_nkvmeta`-stemmed), the receive merger overwrites the
local entry with the remote record (`applyRemote`, which stores the remote
value and lastModified, deleting the key when the remote value is `null`)
exactly when the remote `lastModified` is strictly greater than the local
entry's, an absent local entry always being overwritten; on a tie or a
strictly smaller remote timestamp the store is left unchanged and the key
is not recorded as changed. -/
theorem merge_overwrites_iff_strictly_newer (st : Store) (k : String)
    (re : Entry) (hk : startsWithMeta k = false) :
    (localGet st k = none → mergeKey st k re = (applyRemote st k re, true)) ∧
    (∀ e : Entry, localGet st k = some (.entry e) →
      e.lastModified < re.lastModified →
      mergeKey st k re = (applyRemote st k re, true)) ∧
    (∀ e : Entry, localGet st k = some (.entry e) →
      re.lastModified ≤ e.lastModified →
      mergeKey st k re = (st, false)) := by
  refine ⟨fun h => ?_, fun e he hlt => ?_, fun e he hge => ?_⟩
  · simp [mergeKey, hk, shouldOverwrite, h]
  · simp [mergeKey, hk, shouldOverwrite, he, hlt]
  · simp [mergeKey, hk, shouldOverwrite, he, Nat.not_lt.mpr hge]

/-- Witness for C1: a concrete store where a strictly newer remote record
wins. -/
theorem merge_overwrites_iff_strictly_newer_witness :
    mergeKey [("a", Stored.entry ⟨Val.str "x", 5⟩)] "a" ⟨Val.str "y", 10⟩ =
      (applyRemote [("a", Stored.entry ⟨Val.str "x", 5⟩)] "a"
        ⟨Val.str "y", 10⟩, true) :=
  (merge_overwrites_iff_strictly_newer
      [("a", Stored.entry ⟨Val.str "x", 5⟩)] "a" ⟨Val.str "y", 10⟩
      (by decide)).2.1 ⟨Val.str "x", 5⟩ (by decide) (by decide)

/-- C7: once `set(k, v)` has persisted its entry, `get(k)` returns `v` —
for every prior store state, so independent of connectivity and of any
publish attempt's outcome (the publish path only reads the store via
`snapshotData` and never writes to it). -/
theorem get_after_set (st : Store) (k : String) (v : Val) (nowMs : Nat) :
    storeGet (storeSet st k v nowMs) k = some v := by
  simp [storeGet, storeSet, localGet_localSet_same]

/-- C10: `_nkvmeta`-stemmed bookkeeping keys are excluded from every
published snapshot, and an incoming remote record for such a key is never
merged (store unchanged, key not recorded as changed). -/
theorem meta_keys_not_synced (st : Store) (k : String)
    (hk : startsWithMeta k = true) :
    (∀ e : Entry, (k, e) ∉ snapshotData st) ∧
    (∀ re : Entry, mergeKey st k re = (st, false)) := by
  constructor
  · intro e hmem
    unfold snapshotData at hmem
    rw [List.mem_filterMap] at hmem
    obtain ⟨p, _, hpe⟩ := hmem
    by_cases h : startsWithMeta p.1
    · simp [h] at hpe
    · cases hp2 : p.2 with
      | entry e' =>
          rw [if_neg (by simp [h]), hp2] at hpe
          have hk1 : p.1 = k := by
            simpa using congrArg (fun q => (Option.map Prod.fst q)) hpe
          rw [hk1] at h
          exact h hk
      | rawNat n => rw [if_neg (by simp [h]), hp2] at hpe; simp at hpe
  · intro re
    simp [mergeKey, hk]

/-- Witness for C10: the persisted-cursor key `_nkvmeta_lastSync` neither
appears in a snapshot of a store containing it nor merges into the local
store. -/
theorem meta_keys_not_synced_witness :
    (LAST_SYNC_KEY, (⟨Val.num 1, 2⟩ : Entry)) ∉
      snapshotData [(LAST_SYNC_KEY, Stored.rawNat 7)] ∧
    mergeKey [] LAST_SYNC_KEY ⟨Val.str "x", 3⟩ = ([], false) :=
  ⟨(meta_keys_not_synced [(LAST_SYNC_KEY, Stored.rawNat 7)] LAST_SYNC_KEY
      (by decide)).1 ⟨Val.num 1, 2⟩,
   (meta_keys_not_synced [] LAST_SYNC_KEY (by decide)).2 ⟨Val.str "x", 3⟩⟩

/-- Helper: a run of `fuel` consecutive failed attempts starting at retry
counter `count` resolves the `sync()` future with `false` exactly when the
budget `N` is reached at the last attempt. -/
theorem publishChain_replicate_false (mrd : Nat) :
    ∀ fuel count N, 1 ≤ fuel → count + fuel = N →
      publishChain (List.replicate fuel false) count N mrd = some false := by
  intro fuel
  induction fuel with
  | zero => intro _ _ h; omega
  | succ n ih =>
      intro count N _ hsum
      rw [List.replicate_succ]
      by_cases hn : n = 0
      · subst hn
        have hcond : ¬(N = 0 ∨ count + 1 < N) := by omega
        have hfail : onPublishFailure count N mrd = .giveUp false 0 := by
          unfold onPublishFailure; rw [if_neg hcond]
        simp [publishChain, hfail]
      · have hlt : count + 1 < N := by omega
        have hne : N ≠ 0 := by omega
        simp only [publishChain, onPublishFailure]
        rw [if_pos (Or.inr hlt)]
        exact ih (count + 1) N (by omega) (by omega)

/-- Helper: the failure branch only ever gives up with `false` and a reset
counter. -/
theorem onPublishFailure_giveUp_eq (rc mrc mrd : Nat) (b : Bool) (n : Nat)
    (h : onPublishFailure rc mrc mrd = .giveUp b n) : b = false ∧ n = 0 := by
  unfold onPublishFailure at h
  split at h <;> simp_all

/-- C6: on a publish failure the retry counter is incremented, and a retry
is scheduled after `min(1000 * 2^(newCount-1), maxRetryDelay)` ms exactly
when `maxRetryCount = 0` or the incremented counter is still below
`maxRetryCount`; otherwise the `sync()` future is resolved `false` and the
counter reset — so with `maxRetryCount = N ≥ 1` against a transport that
always fails, the future resolves `false` after `N` attempts. -/
theorem retry_backoff_policy (rc mrc mrd : Nat) :
    ((mrc = 0 ∨ rc + 1 < mrc) →
      onPublishFailure rc mrc mrd =
        .retry (min (1000 * 2 ^ rc) mrd) (rc + 1)) ∧
    (¬(mrc = 0 ∨ rc + 1 < mrc) →
      onPublishFailure rc mrc mrd = .giveUp false 0) ∧
    (∀ N mrd2, 1 ≤ N →
      publishChain (List.replicate N false) 0 N mrd2 = some false) := by
  refine ⟨fun h => ?_, fun h => ?_, fun N mrd2 hN => ?_⟩
  · simp [onPublishFailure, h, BASE_RETRY_DELAY]
  · simp [onPublishFailure, h]
  · exact publishChain_replicate_false mrd2 N 0 N hN (by omega)

/-- Witness for C6: with a budget of 3, the first failure retries after
the 1000 ms base delay, the third failure exhausts the budget, and three
straight failures resolve the `sync()` future with `false`. -/
theorem retry_backoff_policy_witness :
    onPublishFailure 0 3 60000 = .retry 1000 1 ∧
    onPublishFailure 2 3 60000 = .giveUp false 0 ∧
    publishChain (List.replicate 3 false) 0 3 60000 = some false :=
  ⟨(retry_backoff_policy 0 3 60000).1 (by omega),
   (retry_backoff_policy 2 3 60000).2.1 (by omega),
   (retry_backoff_policy 0 0 0).2.2 3 60000 (by omega)⟩

/-- C8: `sync()` with no pending publish resolves immediately to `true`;
with a publish pending or in flight it returns that publish's future,
which a successful attempt resolves `true`, an exhausted retry budget
resolves `false`, and which never resolves `true` unless some attempt in
the chain actually succeeded. -/
theorem sync_future_contract (mrc mrd : Nat) :
    syncCall none mrc mrd = some true ∧
    (∀ rest rc, syncCall (some (true :: rest, rc)) mrc mrd = some true) ∧
    (∀ rest rc, onPublishFailure rc mrc mrd = .giveUp false 0 →
      syncCall (some (false :: rest, rc)) mrc mrd = some false) ∧
    (∀ attempts rc, syncCall (some (attempts, rc)) mrc mrd = some true →
      true ∈ attempts) := by
  refine ⟨rfl, fun rest rc => rfl, fun rest rc h => ?_, fun attempts => ?_⟩
  · simp [syncCall, publishChain, h]
  · induction attempts with
    | nil => intro rc h; simp [syncCall, publishChain] at h
    | cons a rest ih =>
        intro rc h
        cases a with
        | true => exact List.mem_cons_self true rest
        | false =>
            simp only [syncCall, publishChain] at h
            cases hf : onPublishFailure rc mrc mrd with
            | retry d c =>
                rw [hf] at h
                exact List.mem_cons_of_mem _ (ih c h)
            | giveUp b n =>
                rw [hf] at h
                obtain ⟨hb, _⟩ := onPublishFailure_giveUp_eq rc mrc mrd b n hf
                subst hb
                simp at h

/-- Witness for C8: no pending publish gives `true`; a successful first
attempt gives `true`; a failed attempt with the budget already at its last
try gives `false`. -/
theorem sync_future_contract_witness :
    syncCall none 0 60000 = some true ∧
    syncCall (some ([true], 0)) 0 60000 = some true ∧
    syncCall (some ([false], 2)) 3 60000 = some false :=
  ⟨(sync_future_contract 0 60000).1,
   (sync_future_contract 0 60000).2.1 [] 0,
   (sync_future_contract 3 60000).2.2.1 [] 2 (by decide)⟩

/-- C5 (code bug): processing an event with `created_at = 100` on a fresh
store advances the in-memory cursor to `max(0, 100) = 100`, but the value
persisted under `_nkvmeta_lastSync` is the wall clock `Date.now()` (here
`5000000` ms) rather than the cursor — so after a restart `initCursor`
reloads `5000000`, not `100`. -/
theorem cursor_persists_wallclock_not_cursor :
    (processEventCursor 0 100 5000000 []).1 = 100 ∧
    localGet (processEventCursor 0 100 5000000 []).2 LAST_SYNC_KEY =
      some (.rawNat 5000000) ∧
    initCursor (processEventCursor 0 100 5000000 []).2 = 5000000 ∧
    (5000000 : Nat) ≠ 100 := by
  refine ⟨rfl, ?_, ?_, by omega⟩ <;> decide

/-- C2 (code bug): after `set("k", "v0")` at t=1000 and `del("k")`, the
key is physically gone, so (a) the published snapshot no longer mentions
`"k"` at all — the deletion is never propagated — and (b) merging a remote
snapshot carrying `"k"` with the *older* timestamp 500 resurrects the
value: `get("k")` returns `"old"` instead of staying absent. -/
theorem deleted_key_resurrected_by_older_snapshot :
    snapshotData (storeDel (storeSet [] "k" (Val.str "v0") 1000) "k") = [] ∧
    storeGet
      (mergeSnapshot (storeDel (storeSet [] "k" (Val.str "v0") 1000) "k")
        [("k", ⟨Val.str "old", 500⟩)]).1 "k" = some (Val.str "old") := by
  refine ⟨?_, ?_⟩ <;> decide

/-- C3 (code bug): `del(k)` is not `set(k, null)`.  Starting from a store
holding `"k"`, `del` leaves the key absent and the published snapshot
empty, while `set(k, null)` leaves a retained null entry with a fresh
`lastModified` that the snapshot does carry. -/
theorem del_differs_from_set_null :
    localGet (storeDel (storeSet [] "k" (Val.str "a") 500) "k") "k" =
      none ∧
    localGet (storeSet (storeSet [] "k" (Val.str "a") 500) "k" Val.null
      1000) "k" = some (.entry ⟨Val.null, 1000⟩) ∧
    snapshotData (storeDel (storeSet [] "k" (Val.str "a") 500) "k") = [] ∧
    snapshotData (storeSet (storeSet [] "k" (Val.str "a") 500) "k" Val.null
      1000) = [("k", ⟨Val.null, 1000⟩)] := by
  refine ⟨?_, ?_, ?_, ?_⟩ <;> decide

/-- C4 (code bug): a reachable event-loop trace with two publish attempts
simultaneously in flight.  A write at t=0 arms the debounce timer; it
fires at t=1010 starting a publish that is still awaiting the relay pool
when a second write at t=1011 re-arms the timer; the timer fires at t=2021
and starts a second publish while the first is still in flight
(`inFlight = 2`), because neither `scheduleSync` nor `publishToNostr`
checks any single-flight or queued flag. -/
theorem two_publishes_in_flight :
    runLoop ⟨0, none, 0⟩
      [.localWrite 0, .debounceFire, .localWrite 1011, .debounceFire] =
      some ⟨2021, none, 2⟩ := by
  decide

/-- Counterexample for C9: with two registered listeners of which the
first throws, the notification loop (which has no per-listener try/catch
in the final version) invokes only listener 0: listener 1 is never run,
refuting the claim that every registered callback is invoked even when an
earlier one throws. -/
theorem throwing_listener_blocks_later_listener :
    (notifyListeners [⟨fun _ _ => true⟩, ⟨fun _ _ => false⟩] "k"
      (Val.str "v")).1 = [0] ∧
    1 ∉ (notifyListeners [⟨fun _ _ => true⟩, ⟨fun _ _ => false⟩] "k"
      (Val.str "v")).1 := by
  refine ⟨rfl, by decide⟩

/-- C9 (amended): listeners are invoked in registration order; when none
throws, every registered listener is invoked and no exception escapes;
when one throws, exactly the listeners up to and including the first
throwing one are invoked and the exception escapes to the event handler's
outer catch, skipping the rest. -/
theorem listener_invocation_stops_at_first_throw (ls : List Listener)
    (k : String) (v : Val) :
    (firstThrowIdx k v ls = none →
      notifyListeners ls k v = (List.range ls.length, false)) ∧
    (∀ i, firstThrowIdx k v ls = some i →
      notifyListeners ls k v = (List.range (i + 1), true)) := by
  induction ls with
  | nil =>
      exact ⟨fun _ => rfl, fun i h => by simp [firstThrowIdx] at h⟩
  | cons l rest ih =>
      constructor
      · intro h
        by_cases ht : l.throws k v
        · simp [firstThrowIdx, ht] at h
        · simp only [firstThrowIdx, if_neg ht, Option.map_eq_none'] at h
          have hr := ih.1 h
          simp [notifyListeners, ht, hr, List.range_succ_eq_map,
            Function.comp]
      · intro i h
        by_cases ht : l.throws k v
        · simp only [firstThrowIdx, if_pos ht, Option.some.injEq] at h
          subst h
          simp [notifyListeners, ht, List.range_succ_eq_map]
        · simp only [firstThrowIdx, if_neg ht, Option.map_eq_some'] at h
          obtain ⟨j, hj, rfl⟩ := h
          have hr := ih.2 j hj
          simp [notifyListeners, ht, hr, List.range_succ_eq_map,
            Function.comp]

/-- Witness for the amended C9: with a throwing first listener the loop
invokes exactly listener 0 and the exception escapes; with no throwing
listener both listeners run and nothing escapes. -/
theorem listener_invocation_stops_at_first_throw_witness :
    notifyListeners [⟨fun _ _ => true⟩, ⟨fun _ _ => false⟩] "x" Val.null =
      (List.range 1, true) ∧
    notifyListeners [⟨fun _ _ => false⟩, ⟨fun _ _ => false⟩] "x" Val.null =
      (List.range 2, false) :=
  ⟨(listener_invocation_stops_at_first_throw
      [⟨fun _ _ => true⟩, ⟨fun _ _ => false⟩] "x" Val.null).2 0 rfl,
   (listener_invocation_stops_at_first_throw
      [⟨fun _ _ => false⟩, ⟨fun _ _ => false⟩] "x" Val.null).1 rfl⟩

end NostrKV
